import Mathlib

/-!
# Verification of the rodin-mcp poll/download pipeline

Shallow embedding of `src/rodin_mcp/rodin.py`.

Modelling choices:
* HTTP traffic is abstracted by a `Network` oracle: the result of the i-th
  status POST, the result of the manifest POST, and the result of the k-th
  GET attempt on each asset URL.  Each call either fails at the transport
  level (connection error / timeout, raised at the `client.post` / `client.get`
  call site) or yields a `Response` (status code plus decoded body).
* Python exceptions become the `PyError` sum: the repository's own
  `RodinAPIException`, raw `httpx` exceptions that escape un-normalized, and
  generic runtime exceptions (`KeyError`, JSON decode errors).
* Side effects (requests issued, sleeps, directory creation, file writes) are
  recorded in an `Event` trace returned next to the result; `asyncio.gather`
  is modelled by running every fetch task to completion (no cancellation of
  siblings, as in the source) and failing with the first failed task's error.
-/

deriving instance DecidableEq for Except

/-- Raw file bytes (`response.content`). -/
abbrev Bytes := List Nat

/-- Decoded body of an HTTP response, as the Python code consumes it:
a status-endpoint body (`{"jobs": [{"status": ...}, ...]}`, `none` when the
`jobs` key / per-job `status` keys are missing), a download-endpoint body
(`{"list": [{"name": .., "url": ..}, ...]}`, `none` when the `list` key is
missing), raw bytes (asset GETs), or a non-JSON text body. -/
inductive Body where
  | statusBody (jobs : Option (List String))
  | manifestBody (entries : Option (List (String × String)))
  | bytes (content : Bytes)
  | text (t : String)
deriving DecidableEq

/-- An HTTP response: status code and decoded body. -/
structure Response where
  status : Nat
  body : Body
deriving DecidableEq

/-- `response.raise_for_status()` succeeds exactly on 2xx codes. -/
def Response.is2xx (r : Response) : Bool :=
  decide (200 ≤ r.status) && decide (r.status < 300)

/-- A transport-level failure raised by `httpx` at the request call site,
before any response exists. -/
inductive TransportErr where
  | connect
  | timeout
deriving DecidableEq

/-- Outcome of one HTTP request: transport failure or a response. -/
abbrev NetResult := Except TransportErr Response

/-- The `httpx` exception raised for a request: `HTTPStatusError` from
`raise_for_status`, or the transport exceptions `ConnectError` /
`TimeoutException` raised at the call site. -/
inductive HttpxExc where
  | httpStatusError (response : Response)
  | connectError
  | timeoutException
deriving DecidableEq

/-- The exception a transport failure surfaces as. -/
def TransportErr.raiseExc : TransportErr → HttpxExc
  | .connect => .connectError
  | .timeout => .timeoutException

/-- A Python exception escaping from the tool code.
`rodinAPI` is modelled from the spec: the `RodinAPIException` class lives in
the repository's missing `exceptions` module; per the spec it is the single
normalized API error kind carrying a descriptive message and, when available,
the triggering response.  `httpx` is a raw httpx exception escaping
un-normalized; `pyGeneric` is a generic runtime exception (`KeyError`,
JSON decode error). -/
inductive PyError where
  | rodinAPI (msg : String) (response : Option Response)
  | httpx (e : HttpxExc)
  | pyGeneric (msg : String)
deriving DecidableEq

/-- Whether an escaping exception is the normalized API error kind. -/
def PyError.isRodinAPI : PyError → Bool
  | .rodinAPI _ _ => true
  | _ => false

/-- `response.raise_for_status()`: raises `httpx.HTTPStatusError` on a
non-2xx code; it never raises `RequestError` or `TimeoutException`. -/
def raise_for_status (r : Response) : Except HttpxExc Unit :=
  if r.is2xx then Except.ok () else Except.error (.httpStatusError r)

/-- `error_handle_response` (rodin.py:16-35): calls `raise_for_status` and
converts the httpx exceptions it catches into `RodinAPIException`.  The
`RequestError` / `TimeoutException` branches are kept from the source even
though `raise_for_status` only ever raises `HTTPStatusError`. -/
def error_handle_response (r : Response) : Except PyError Unit :=
  match raise_for_status r with
  | .ok () => .ok ()
  | .error (.httpStatusError resp) =>
      .error (.rodinAPI ("HTTP error occurred: " ++ toString resp.status) (some resp))
  | .error .connectError => .error (.rodinAPI "Request error occurred" none)
  | .error .timeoutException => .error (.rodinAPI "Timeout occurred" none)

/-- Return value of `generate_3d_model`: decoded JSON body, or raw text when
the body fails to decode as JSON. -/
inductive GenReturn where
  | jsonData (b : Body)
  | rawText (t : String)
deriving DecidableEq

/-- `generate_3d_model` (rodin.py:37-77), abstracted over the outcome of its
single POST.  A transport failure at `client.post` is raised outside any
handler and escapes as the raw httpx exception; only after a response exists
is `error_handle_response` reached. -/
def generate_3d_model (postResult : NetResult) : Except PyError GenReturn :=
  match postResult with
  | .error te => .error (.httpx te.raiseExc)
  | .ok resp =>
    match error_handle_response resp with
    | .error e => .error e
    | .ok () =>
      match resp.body with
      | .text t => .ok (.rawText t)
      | .bytes c => .ok (.rawText (toString c))
      | b => .ok (.jsonData b)

/-- Modelled from the spec: `DownloadRequestParameters` from the repository's
missing `custom_types` module — the task uuid, the subscription key and the
caller-supplied target directory, as used by `try_download_result`. -/
structure DownloadRequestParameters where
  uuid : String
  subscription_key : String
  target_directory_path : String

/-- Network oracle for one `try_download_result` invocation:
`statusPost i` is the outcome of the (i+1)-th status POST, `downloadPost`
the outcome of the manifest POST, and `assetGet url k` the outcome of the
k-th GET attempt (1-based) on `url`. -/
structure Network where
  statusPost : Nat → NetResult
  downloadPost : NetResult
  assetGet : String → Nat → NetResult

/-- Observable side effects, in order. -/
inductive Event where
  | statusRequest
  | downloadRequest
  | assetRequest (url : String)
  | sleep (seconds : ℚ)
  | mkdir (path : String) (exist_ok : Bool)
  | fileWrite (path : String) (content : Bytes)
deriving DecidableEq

/-- Return value of `try_download_result`:
a plain string, or `(Optional[MCPImage], str)` where the image is identified
by its file path. -/
inductive ToolResult where
  | text (s : String)
  | pair (preview : Option String) (message : String)
deriving DecidableEq

/-- Whether `response.json()` succeeds on this body. -/
def Body.jsonDecodes : Body → Bool
  | .bytes _ => false
  | .text _ => false
  | _ => true

/-- `[i['status'] for i in json_data["jobs"]]`: `some` statuses when the body
has the status shape with the `jobs` list present, `none` when that
extraction raises. -/
def Body.jobsStatuses : Body → Option (List String)
  | .statusBody jobs => jobs
  | _ => none

/-- `json_data['list']`: `some` entries when present, `none` when the access
raises `KeyError`. -/
def Body.manifestEntries : Body → Option (List (String × String))
  | .manifestBody entries => entries
  | _ => none

/-- `response.content` of an asset GET (exact for `bytes` bodies, the only
shape asset URLs serve). -/
def Body.content : Body → Bytes
  | .bytes c => c
  | _ => []

/-- `os.path.join` for a directory path without trailing separator. -/
def pathJoin (dir file : String) : String := dir ++ "/" ++ file

/-- One Python dict insertion: an existing key keeps its position and gets
the new value, a fresh key is appended. -/
def dictInsert (d : List (String × String)) (k v : String) : List (String × String) :=
  if d.any (fun pr => pr.1 = k) then
    d.map (fun pr => if pr.1 = k then (k, v) else pr)
  else d ++ [(k, v)]

/-- `{i['name']: i['url'] for i in json_data['list']}` (rodin.py:149-152):
duplicate names overwrite, last write wins. -/
def buildAssetDict (entries : List (String × String)) : List (String × String) :=
  entries.foldl (fun d pr => dictInsert d pr.1 pr.2) []

/-- `name in asset_dict`. -/
def hasKey (d : List (String × String)) (k : String) : Bool :=
  d.any (fun pr => pr.1 = k)

/-- The summary string returned on success (rodin.py:168-169). -/
def downloadSummary (target : String) : String :=
  "The image above is an preview image of the generated model, without texture and material.\n"
    ++ "The assets are downloaded to " ++ target

/-- The not-finished sentinel (rodin.py:136). -/
def notFinishedMessage : String := "Task not finished yet. Try again later."

/-- The exception one failed GET attempt raises inside `download_file`:
the raw transport exception, or `HTTPStatusError` from `raise_for_status`. -/
def attemptExc : NetResult → PyError
  | .error te => .httpx te.raiseExc
  | .ok resp => .httpx (.httpStatusError resp)

/-- Whether one GET attempt fails (transport failure or non-2xx). -/
def NetResult.failsAttempt : NetResult → Bool
  | .error _ => true
  | .ok resp => !resp.is2xx

/-- Body of `download_file` (rodin.py:79-93): `fuel` attempts remain,
`attempt` is the 1-based index of the next one.  A successful 2xx GET writes
the body and returns; a failed attempt sleeps `delay` and retries while
attempts remain, and re-raises the last exception once they run out. -/
def download_file_go (fetch : Nat → NetResult) (url file_path : String) (delay : ℚ)
    (attempt : Nat) : Nat → Except PyError Unit × List Event
  | 0 => (.ok (), [])
  | fuel + 1 =>
    match fetch attempt with
    | .ok resp =>
      if resp.is2xx then
        (.ok (), [.assetRequest url, .fileWrite file_path resp.body.content])
      else if fuel = 0 then
        (.error (attemptExc (.ok resp)), [.assetRequest url])
      else
        ((download_file_go fetch url file_path delay (attempt + 1) fuel).1,
          .assetRequest url :: .sleep delay ::
            (download_file_go fetch url file_path delay (attempt + 1) fuel).2)
    | .error te =>
      if fuel = 0 then
        (.error (attemptExc (.error te)), [.assetRequest url])
      else
        ((download_file_go fetch url file_path delay (attempt + 1) fuel).1,
          .assetRequest url :: .sleep delay ::
            (download_file_go fetch url file_path delay (attempt + 1) fuel).2)

/-- `download_file(client, url, file_path, retries, delay)` (rodin.py:79-93),
with `fetch k` the outcome of the k-th GET on `url`. -/
def download_file (fetch : Nat → NetResult) (url file_path : String)
    (retries : Nat) (delay : ℚ) : Except PyError Unit × List Event :=
  download_file_go fetch url file_path delay 1 retries

/-- The polling `for`/`else` loop (rodin.py:114-136).  Returns `ok true` when
some iteration saw every job Done (`break`), `ok false` when the attempt
budget ran out (the `else` branch), and an error when an iteration raised.
A transport failure at the POST escapes raw; a non-2xx response is
normalized by `error_handle_response`; a non-JSON body raises a generic
decode error at `response.json()` (outside the `try`); a JSON body without
the jobs list raises the "Unexpected response" API error; any Failed or
Canceled job raises the task-failure API error; all-Done breaks; otherwise
the loop sleeps 1.5 s and retries. -/
def pollLoop (net : Network) (idx : Nat) : Nat → Except PyError Bool × List Event
  | 0 => (.ok false, [])
  | fuel + 1 =>
    match net.statusPost idx with
    | .error te => (.error (.httpx te.raiseExc), [.statusRequest])
    | .ok resp =>
      match error_handle_response resp with
      | .error e => (.error e, [.statusRequest])
      | .ok () =>
        if !resp.body.jsonDecodes then
          (.error (.pyGeneric "JSONDecodeError"), [.statusRequest])
        else
          match resp.body.jobsStatuses with
          | none => (.error (.rodinAPI "Unexpected response" none), [.statusRequest])
          | some status_list =>
            if status_list.contains "Failed" || status_list.contains "Canceled" then
              (.error (.rodinAPI "Generation task failed!" (some resp)), [.statusRequest])
            else if status_list.all (fun s => s == "Done") then
              (.ok true, [.statusRequest])
            else
              ((pollLoop net (idx + 1) fuel).1,
                .statusRequest :: .sleep (3 / 2) :: (pollLoop net (idx + 1) fuel).2)

/-- Phase P3 (rodin.py:154-170): create the target directory
(`exist_ok=True`), run one `download_file` task per asset-dict entry
(`asyncio.gather`: every task runs to completion, the first failed task's
exception propagates), then build the preview handle and summary. -/
def downloadPhase (net : Network) (p : DownloadRequestParameters)
    (dict : List (String × String)) : Except PyError ToolResult × List Event :=
  let results := dict.map (fun pr =>
    download_file (net.assetGet pr.2) pr.2 (pathJoin p.target_directory_path pr.1) 3 1)
  let evs := Event.mkdir p.target_directory_path true :: (results.map Prod.snd).flatten
  match (results.map Prod.fst).find? (fun r => !(r matches .ok _)) with
  | some (.error e) => (.error e, evs)
  | _ =>
    (.ok (.pair
      (if hasKey dict "preview.webp" then
        some (pathJoin p.target_directory_path "preview.webp")
      else none)
      (downloadSummary p.target_directory_path)), evs)

/-- Phases P2+P3 (rodin.py:139-170), entered after the poll loop broke:
the manifest POST (transport failure escapes raw; non-2xx is normalized;
non-JSON body raises a generic decode error at `response.json()`; a JSON
body without the `list` key raises a generic `KeyError` at the asset-dict
comprehension, which is not wrapped in any handler), then the download
phase. -/
def afterPoll (net : Network) (p : DownloadRequestParameters) :
    Except PyError ToolResult × List Event :=
  match net.downloadPost with
  | .error te => (.error (.httpx te.raiseExc), [.downloadRequest])
  | .ok resp =>
    match error_handle_response resp with
    | .error e => (.error e, [.downloadRequest])
    | .ok () =>
      if !resp.body.jsonDecodes then
        (.error (.pyGeneric "JSONDecodeError"), [.downloadRequest])
      else
        match resp.body.manifestEntries with
        | none => (.error (.pyGeneric "KeyError: list"), [.downloadRequest])
        | some entries =>
          ((downloadPhase net p (buildAssetDict entries)).1,
            .downloadRequest :: (downloadPhase net p (buildAssetDict entries)).2)

/-- `try_download_result` (rodin.py:95-170): poll up to 3 times, return the
not-finished sentinel if the budget runs out, otherwise resolve the manifest
and download every asset. -/
def try_download_result (net : Network) (p : DownloadRequestParameters) :
    Except PyError ToolResult × List Event :=
  match pollLoop net 0 3 with
  | (.error e, evs) => (.error e, evs)
  | (.ok false, evs) => (.ok (.text notFinishedMessage), evs)
  | (.ok true, evs) => ((afterPoll net p).1, evs ++ (afterPoll net p).2)

/-- Count of status POSTs in a trace. -/
def countStatusRequests (evs : List Event) : Nat :=
  (evs.filter (fun e => e matches .statusRequest)).length

/-- Count of manifest POSTs in a trace. -/
def countDownloadRequests (evs : List Event) : Nat :=
  (evs.filter (fun e => e matches .downloadRequest)).length

/-- Count of asset GET attempts in a trace. -/
def countAssetRequests (evs : List Event) : Nat :=
  (evs.filter (fun e => e matches .assetRequest _)).length

/-- Count of sleeps in a trace. -/
def countSleeps (evs : List Event) : Nat :=
  (evs.filter (fun e => e matches .sleep _)).length

/-- The file writes of a trace, in order. -/
def writes (evs : List Event) : List (String × Bytes) :=
  evs.filterMap (fun e => match e with
    | .fileWrite pth c => some (pth, c)
    | _ => none)

/-- The directory creations of a trace, in order. -/
def mkdirs (evs : List Event) : List (String × Bool) :=
  evs.filterMap (fun e => match e with
    | .mkdir pth ok => some (pth, ok)
    | _ => none)

/-- A status-POST outcome that keeps the poll loop going: 2xx, well-formed
jobs list, no Failed/Canceled, not all Done. -/
def pendingOkP (r : NetResult) : Prop :=
  ∃ resp l, r = Except.ok resp ∧ resp.is2xx = true ∧
    resp.body = Body.statusBody (some l) ∧
    (l.contains "Failed" || l.contains "Canceled") = false ∧
    l.all (fun s => s == "Done") = false

/-- A status-POST outcome reporting every job Done (2xx, well-formed). -/
def allDoneP (r : NetResult) : Prop :=
  ∃ resp l, r = Except.ok resp ∧ resp.is2xx = true ∧
    resp.body = Body.statusBody (some l) ∧
    l.all (fun s => s == "Done") = true

/-! Concrete example inputs, used to instantiate the theorems below. -/

/-- Example call parameters. -/
def exampleParams : DownloadRequestParameters := ⟨"task-1", "sub-key", "/tmp/out"⟩

/-- A 2xx status response with one Running job. -/
def pendingResp : Response := ⟨200, .statusBody (some ["Running", "Done"])⟩

/-- A 2xx status response with every job Done. -/
def doneResp : Response := ⟨200, .statusBody (some ["Done", "Done"])⟩

/-- A 2xx status response with one Failed job. -/
def failedResp : Response := ⟨200, .statusBody (some ["Done", "Failed"])⟩

/-- A 2xx status response whose JSON body has no jobs list. -/
def noJobsResp : Response := ⟨200, .statusBody none⟩

/-- A 2xx manifest response with two uniquely named assets. -/
def manifestResp : Response :=
  ⟨200, .manifestBody (some [("model.glb", "u1"), ("preview.webp", "u2")])⟩

/-- A 2xx manifest response whose JSON body has no list key. -/
def noListResp : Response := ⟨200, .manifestBody none⟩

/-- A 2xx asset response serving the given bytes. -/
def assetResp (c : Bytes) : Response := ⟨200, .bytes c⟩

/-- The bytes each example asset URL serves. -/
def exampleServe (url : String) : Bytes := if url = "u1" then [1, 2] else [3]

/-- Network: first poll pending, second poll all Done, manifest and assets
succeed on the first attempt. -/
def netPendingThenDone : Network :=
  ⟨fun i => if i = 0 then .ok pendingResp else .ok doneResp,
   .ok manifestResp,
   fun url _ => .ok (assetResp (exampleServe url))⟩

/-- Network: the first poll reports a Failed job. -/
def netTaskFailed : Network :=
  ⟨fun _ => .ok failedResp, .ok manifestResp, fun url _ => .ok (assetResp (exampleServe url))⟩

/-- Network: every poll reports a still-running job. -/
def netAllPending : Network :=
  ⟨fun _ => .ok pendingResp, .ok manifestResp, fun url _ => .ok (assetResp (exampleServe url))⟩

/-- Network: polls succeed immediately, manifest and assets succeed on the
first attempt. -/
def netHappy : Network :=
  ⟨fun _ => .ok doneResp, .ok manifestResp, fun url _ => .ok (assetResp (exampleServe url))⟩

/-- Network: happy except that every GET on the first asset URL fails with a
500 response while the second asset succeeds. -/
def netOneBadAsset : Network :=
  ⟨fun _ => .ok doneResp, .ok manifestResp,
   fun url _ => if url = "u1" then .ok ⟨500, .bytes []⟩ else .ok (assetResp [3])⟩

/-- Network: poll succeeds but the manifest response has no list key. -/
def netBadManifest : Network :=
  ⟨fun _ => .ok doneResp, .ok noListResp, fun url _ => .ok (assetResp (exampleServe url))⟩

/-- Network: the first status response has no jobs list. -/
def netBadStatusShape : Network :=
  ⟨fun _ => .ok noJobsResp, .ok manifestResp, fun url _ => .ok (assetResp (exampleServe url))⟩

/-- A fetch that fails on attempts 1 and 2 and serves bytes on attempt 3. -/
def flakyFetch : Nat → NetResult :=
  fun k => if k < 3 then .error .connect else .ok (assetResp [9])

/-- A fetch that fails every attempt with a 503 response. -/
def alwaysFailFetch : Nat → NetResult := fun _ => .ok ⟨503, .bytes []⟩

/-! ## Helper lemmas -/

theorem allDone_not_failedCanceled (l : List String)
    (h : l.all (fun s => s == "Done") = true) :
    (l.contains "Failed" || l.contains "Canceled") = false := by
  simp only [List.all_eq_true, beq_iff_eq] at h
  simp only [Bool.or_eq_false_iff]
  constructor <;>
  · rw [Bool.eq_false_iff]
    intro hc
    rw [List.contains_eq_any_beq] at hc
    simp only [List.any_eq_true, beq_iff_eq] at hc
    obtain ⟨x, hx, rfl⟩ := hc
    have := h _ hx
    simp at this

theorem pollLoop_pending_step (net : Network) (idx fuel : Nat)
    (h : pendingOkP (net.statusPost idx)) :
    pollLoop net idx (fuel + 1) =
      ((pollLoop net (idx + 1) fuel).1,
        Event.statusRequest :: Event.sleep (3 / 2) :: (pollLoop net (idx + 1) fuel).2) := by
  obtain ⟨resp, l, hr, h2, hb, hfc, hnd⟩ := h
  simp only [pollLoop, hr, error_handle_response, raise_for_status, h2, if_true, hb,
    Body.jsonDecodes, Body.jobsStatuses, Bool.not_true, Bool.false_eq_true, if_false, hfc, hnd]

theorem pollLoop_allDone_step (net : Network) (idx fuel : Nat)
    (h : allDoneP (net.statusPost idx)) :
    pollLoop net idx (fuel + 1) = (.ok true, [Event.statusRequest]) := by
  obtain ⟨resp, l, hr, h2, hb, hd⟩ := h
  simp only [pollLoop, hr, error_handle_response, raise_for_status, h2, if_true, hb,
    Body.jsonDecodes, Body.jobsStatuses, Bool.not_true, Bool.false_eq_true, if_false, hd,
    allDone_not_failedCanceled l hd]

theorem pollLoop_failed_step (net : Network) (idx fuel : Nat) (resp : Response)
    (l : List String) (hr : net.statusPost idx = Except.ok resp) (h2 : resp.is2xx = true)
    (hb : resp.body = Body.statusBody (some l))
    (hfc : (l.contains "Failed" || l.contains "Canceled") = true) :
    pollLoop net idx (fuel + 1) =
      (.error (.rodinAPI "Generation task failed!" (some resp)), [Event.statusRequest]) := by
  simp only [pollLoop, hr, error_handle_response, raise_for_status, h2, if_true, hb,
    Body.jsonDecodes, Body.jobsStatuses, Bool.not_true, Bool.false_eq_true, if_false, hfc]

theorem pollLoop_noJobs_step (net : Network) (idx fuel : Nat) (resp : Response)
    (hr : net.statusPost idx = Except.ok resp) (h2 : resp.is2xx = true)
    (hb : resp.body = Body.statusBody none) :
    pollLoop net idx (fuel + 1) =
      (.error (.rodinAPI "Unexpected response" none), [Event.statusRequest]) := by
  simp only [pollLoop, hr, error_handle_response, raise_for_status, h2, if_true, hb,
    Body.jsonDecodes, Body.jobsStatuses, Bool.not_true, Bool.false_eq_true, if_false]

theorem pollLoop_trace (net : Network) (fuel : Nat) : ∀ idx : Nat,
    countDownloadRequests (pollLoop net idx fuel).2 = 0 ∧
    countAssetRequests (pollLoop net idx fuel).2 = 0 ∧
    writes (pollLoop net idx fuel).2 = [] ∧
    mkdirs (pollLoop net idx fuel).2 = [] := by
  induction fuel with
  | zero =>
    intro idx
    simp [pollLoop, countDownloadRequests, countAssetRequests, writes, mkdirs]
  | succ n ih =>
    intro idx
    rcases hr : net.statusPost idx with te | resp
    · simp [pollLoop, hr, countDownloadRequests, countAssetRequests, writes, mkdirs]
    · rcases h2 : resp.is2xx with _ | _
      · simp [pollLoop, hr, error_handle_response, raise_for_status, h2,
          countDownloadRequests, countAssetRequests, writes, mkdirs]
      · rcases hb : resp.body with jobs | entries | c | t
        · rcases jobs with _ | l
          · rw [pollLoop_noJobs_step net idx n resp hr h2 hb]
            simp [countDownloadRequests, countAssetRequests, writes, mkdirs]
          · rcases hfc : (l.contains "Failed" || l.contains "Canceled") with _ | _
            · rcases hd : l.all (fun s => s == "Done") with _ | _
              · rw [pollLoop_pending_step net idx n ⟨resp, l, hr, h2, hb, hfc, hd⟩]
                have := ih (idx + 1)
                simp [countDownloadRequests, countAssetRequests, writes, mkdirs] at this ⊢
                exact this
              · rw [pollLoop_allDone_step net idx n ⟨resp, l, hr, h2, hb, hd⟩]
                simp [countDownloadRequests, countAssetRequests, writes, mkdirs]
            · rw [pollLoop_failed_step net idx n resp l hr h2 hb hfc]
              simp [countDownloadRequests, countAssetRequests, writes, mkdirs]
        · simp [pollLoop, hr, error_handle_response, raise_for_status, h2, hb,
            Body.jsonDecodes, Body.jobsStatuses,
            countDownloadRequests, countAssetRequests, writes, mkdirs]
        · simp [pollLoop, hr, error_handle_response, raise_for_status, h2, hb,
            Body.jsonDecodes, countDownloadRequests, countAssetRequests, writes, mkdirs]
        · simp [pollLoop, hr, error_handle_response, raise_for_status, h2, hb,
            Body.jsonDecodes, countDownloadRequests, countAssetRequests, writes, mkdirs]

theorem download_file_go_no_posts (fetch : Nat → NetResult) (url fp : String) (delay : ℚ) :
    ∀ fuel attempt : Nat,
      countStatusRequests (download_file_go fetch url fp delay attempt fuel).2 = 0 ∧
      countDownloadRequests (download_file_go fetch url fp delay attempt fuel).2 = 0 ∧
      mkdirs (download_file_go fetch url fp delay attempt fuel).2 = [] := by
  intro fuel
  induction fuel with
  | zero =>
    intro attempt
    simp [download_file_go, countStatusRequests, countDownloadRequests, mkdirs]
  | succ n ih =>
    intro attempt
    rcases hf : fetch attempt with te | resp
    · by_cases hn : n = 0
      · subst hn
        simp [download_file_go, hf, countStatusRequests, countDownloadRequests, mkdirs]
      · have h := ih (attempt + 1)
        simp [download_file_go, hf, hn,
          countStatusRequests, countDownloadRequests, mkdirs] at h ⊢
        exact h
    · rcases h2 : resp.is2xx with _ | _
      · by_cases hn : n = 0
        · subst hn
          simp [download_file_go, hf, h2, countStatusRequests, countDownloadRequests, mkdirs]
        · have h := ih (attempt + 1)
          simp [download_file_go, hf, h2, hn,
            countStatusRequests, countDownloadRequests, mkdirs] at h ⊢
          exact h
      · simp [download_file_go, hf, h2, countStatusRequests, countDownloadRequests, mkdirs]

theorem download_file_go_attempts_le (fetch : Nat → NetResult) (url fp : String) (delay : ℚ) :
    ∀ fuel attempt : Nat,
      countAssetRequests (download_file_go fetch url fp delay attempt fuel).2 ≤ fuel := by
  intro fuel
  induction fuel with
  | zero =>
    intro attempt
    simp [download_file_go, countAssetRequests]
  | succ n ih =>
    intro attempt
    rcases hf : fetch attempt with te | resp
    · by_cases hn : n = 0
      · subst hn
        simp [download_file_go, hf, countAssetRequests]
      · have h := ih (attempt + 1)
        simp [download_file_go, hf, hn, countAssetRequests] at h ⊢
        omega
    · rcases h2 : resp.is2xx with _ | _
      · by_cases hn : n = 0
        · subst hn
          simp [download_file_go, hf, h2, countAssetRequests]
        · have h := ih (attempt + 1)
          simp [download_file_go, hf, h2, hn, countAssetRequests] at h ⊢
          omega
      · simp [download_file_go, hf, h2, countAssetRequests]

theorem download_file_go_sleep_count (fetch : Nat → NetResult) (url fp : String) (delay : ℚ) :
    ∀ fuel attempt : Nat, 1 ≤ fuel →
      countSleeps (download_file_go fetch url fp delay attempt fuel).2 + 1 =
        countAssetRequests (download_file_go fetch url fp delay attempt fuel).2 := by
  intro fuel
  induction fuel with
  | zero => intro attempt h; omega
  | succ n ih =>
    intro attempt _
    rcases hf : fetch attempt with te | resp
    · by_cases hn : n = 0
      · subst hn
        simp [download_file_go, hf, countSleeps, countAssetRequests]
      · have h := ih (attempt + 1) (by omega)
        simp [download_file_go, hf, hn, countSleeps, countAssetRequests] at h ⊢
        omega
    · rcases h2 : resp.is2xx with _ | _
      · by_cases hn : n = 0
        · subst hn
          simp [download_file_go, hf, h2, countSleeps, countAssetRequests]
        · have h := ih (attempt + 1) (by omega)
          simp [download_file_go, hf, h2, hn, countSleeps, countAssetRequests] at h ⊢
          omega
      · simp [download_file_go, hf, h2, countSleeps, countAssetRequests]

theorem download_file_go_sleep_mem (fetch : Nat → NetResult) (url fp : String) (delay : ℚ) :
    ∀ fuel attempt : Nat, ∀ q : ℚ,
      Event.sleep q ∈ (download_file_go fetch url fp delay attempt fuel).2 → q = delay := by
  intro fuel
  induction fuel with
  | zero =>
    intro attempt q h
    simp [download_file_go] at h
  | succ n ih =>
    intro attempt q h
    rcases hf : fetch attempt with te | resp
    · by_cases hn : n = 0
      · subst hn
        simp [download_file_go, hf] at h
      · simp [download_file_go, hf, hn] at h
        rcases h with h | h
        · exact h
        · exact ih (attempt + 1) q h
    · rcases h2 : resp.is2xx with _ | _
      · by_cases hn : n = 0
        · subst hn
          simp [download_file_go, hf, h2] at h
        · simp [download_file_go, hf, h2, hn] at h
          rcases h with h | h
          · exact h
          · exact ih (attempt + 1) q h
      · simp [download_file_go, hf, h2] at h

theorem filter_length_flatten_zero (p : Event → Bool) (L : List (List Event))
    (h : ∀ l ∈ L, (l.filter p).length = 0) : (L.flatten.filter p).length = 0 := by
  induction L with
  | nil => simp
  | cons a L ih =>
    simp only [List.flatten_cons, List.filter_append, List.length_append]
    rw [h a (by simp), ih (fun l hl => h l (by simp [hl]))]

theorem filterMap_flatten_eq {α : Type} (f : Event → Option α) (L : List (List Event)) :
    L.flatten.filterMap f = (L.map (fun l => l.filterMap f)).flatten := by
  induction L with
  | nil => simp
  | cons a L ih => simp [List.filterMap_append, ih]

theorem dictInsert_fresh (d : List (String × String)) (k v : String)
    (h : d.any (fun pr => pr.1 = k) = false) : dictInsert d k v = d ++ [(k, v)] := by
  simp only [dictInsert, h, Bool.false_eq_true, if_false]

theorem buildAssetDict_go_nodup : ∀ l acc : List (String × String),
    (∀ pr ∈ l, acc.any (fun q => q.1 = pr.1) = false) →
    (l.map Prod.fst).Nodup →
    l.foldl (fun d pr => dictInsert d pr.1 pr.2) acc = acc ++ l := by
  intro l
  induction l with
  | nil =>
    intro acc _ _
    simp
  | cons a l ih =>
    intro acc hdisj hnodup
    rw [List.map_cons, List.nodup_cons] at hnodup
    simp only [List.foldl_cons]
    rw [dictInsert_fresh acc a.1 a.2 (hdisj a (by simp))]
    rw [ih (acc ++ [a]) ?_ hnodup.2]
    · simp
    · intro pr hpr
      have h1 := hdisj pr (by simp [hpr])
      have h2 : (a.1 = pr.1) = False := by
        simp only [eq_iff_iff, iff_false]
        intro hcontr
        exact hnodup.1 (hcontr ▸ List.mem_map_of_mem Prod.fst hpr)
      simp [List.any_append, h1, h2]

theorem buildAssetDict_nodup (entries : List (String × String))
    (h : (entries.map Prod.fst).Nodup) : buildAssetDict entries = entries := by
  have := buildAssetDict_go_nodup entries [] (by simp) h
  simpa [buildAssetDict] using this

theorem hasKey_dictInsert_iff (d : List (String × String)) (a b k : String) :
    hasKey (dictInsert d a b) k = true ↔ (hasKey d k = true ∨ a = k) := by
  unfold dictInsert
  by_cases h : d.any (fun pr => pr.1 = a) = true
  · rw [if_pos h]
    simp only [hasKey, List.any_eq_true, decide_eq_true_eq, List.mem_map] at h ⊢
    constructor
    · rintro ⟨q, ⟨pr, hpr, rfl⟩, hqk⟩
      by_cases hpa : pr.1 = a
      · simp only [hpa, if_true] at hqk
        exact Or.inr hqk
      · simp only [hpa, if_false] at hqk
        exact Or.inl ⟨pr, hpr, hqk⟩
    · rintro (⟨pr, hpr, hpk⟩ | hak)
      · by_cases hpa : pr.1 = a
        · refine ⟨(a, b), ⟨pr, hpr, by simp [hpa]⟩, ?_⟩
          rw [← hpa, hpk]
        · exact ⟨pr, ⟨pr, hpr, by simp [hpa]⟩, hpk⟩
      · obtain ⟨pr, hpr, hpa⟩ := h
        exact ⟨(a, b), ⟨pr, hpr, by simp [hpa]⟩, hak⟩
  · rw [if_neg h]
    simp only [hasKey, List.any_append, List.any_cons, List.any_nil, Bool.or_false,
      Bool.or_eq_true, decide_eq_true_eq]

theorem hasKey_buildAssetDict_go : ∀ l acc : List (String × String), ∀ k : String,
    (hasKey (l.foldl (fun d pr => dictInsert d pr.1 pr.2) acc) k = true ↔
      (hasKey acc k = true ∨ hasKey l k = true)) := by
  intro l
  induction l with
  | nil =>
    intro acc k
    simp [hasKey]
  | cons a l ih =>
    intro acc k
    simp only [List.foldl_cons]
    rw [ih (dictInsert acc a.1 a.2) k, hasKey_dictInsert_iff]
    simp only [hasKey, List.any_cons, Bool.or_eq_true, decide_eq_true_eq]
    tauto

theorem hasKey_buildAssetDict (entries : List (String × String)) (k : String) :
    hasKey (buildAssetDict entries) k = hasKey entries k := by
  rw [Bool.eq_iff_iff]
  rw [buildAssetDict, hasKey_buildAssetDict_go entries [] k]
  simp [hasKey]

theorem downloadPhase_trace (net : Network) (p : DownloadRequestParameters)
    (dict : List (String × String)) :
    (downloadPhase net p dict).2 =
      Event.mkdir p.target_directory_path true ::
        ((dict.map (fun pr =>
          download_file (net.assetGet pr.2) pr.2 (pathJoin p.target_directory_path pr.1) 3 1)).map
            Prod.snd).flatten := by
  simp only [downloadPhase]
  split <;> rfl

theorem downloadPhase_counts (net : Network) (p : DownloadRequestParameters)
    (dict : List (String × String)) :
    countStatusRequests (downloadPhase net p dict).2 = 0 ∧
    countDownloadRequests (downloadPhase net p dict).2 = 0 := by
  rw [countStatusRequests, countDownloadRequests, downloadPhase_trace]
  constructor
  · rw [List.filter_cons_of_neg (by simp)]
    apply filter_length_flatten_zero
    intro l hl
    simp only [List.map_map, List.mem_map] at hl
    obtain ⟨pr, _, rfl⟩ := hl
    exact (download_file_go_no_posts (net.assetGet pr.2) pr.2
      (pathJoin p.target_directory_path pr.1) 1 3 1).1
  · rw [List.filter_cons_of_neg (by simp)]
    apply filter_length_flatten_zero
    intro l hl
    simp only [List.map_map, List.mem_map] at hl
    obtain ⟨pr, _, rfl⟩ := hl
    exact (download_file_go_no_posts (net.assetGet pr.2) pr.2
      (pathJoin p.target_directory_path pr.1) 1 3 1).2.1

theorem downloadPhase_all_ok (net : Network) (p : DownloadRequestParameters)
    (dict : List (String × String))
    (h : ∀ pr ∈ dict,
      (download_file (net.assetGet pr.2) pr.2 (pathJoin p.target_directory_path pr.1) 3 1).1 =
        Except.ok ()) :
    (downloadPhase net p dict).1 =
      Except.ok (.pair
        (if hasKey dict "preview.webp" then
          some (pathJoin p.target_directory_path "preview.webp")
        else none)
        (downloadSummary p.target_directory_path)) := by
  have hfind : (((dict.map (fun pr =>
      download_file (net.assetGet pr.2) pr.2 (pathJoin p.target_directory_path pr.1) 3 1)).map
        Prod.fst).find? (fun r => !(r matches .ok _))) = none := by
    rw [List.find?_eq_none]
    intro x hx
    simp only [List.map_map, List.mem_map, Function.comp] at hx
    obtain ⟨pr, hpr, rfl⟩ := hx
    rw [h pr hpr]
    simp
  simp only [downloadPhase, hfind]

theorem downloadPhase_some_fails (net : Network) (p : DownloadRequestParameters)
    (dict : List (String × String))
    (h : ∃ pr ∈ dict,
      (download_file (net.assetGet pr.2) pr.2 (pathJoin p.target_directory_path pr.1) 3 1).1 ≠
        Except.ok ()) :
    ∃ e, (downloadPhase net p dict).1 = Except.error e := by
  have hsome : (((dict.map (fun pr =>
      download_file (net.assetGet pr.2) pr.2 (pathJoin p.target_directory_path pr.1) 3 1)).map
        Prod.fst).find? (fun r => !(r matches .ok _))).isSome := by
    rw [List.find?_isSome]
    obtain ⟨pr, hpr, hne⟩ := h
    refine ⟨(download_file (net.assetGet pr.2) pr.2
      (pathJoin p.target_directory_path pr.1) 3 1).1, ?_, ?_⟩
    · simp only [List.map_map, List.mem_map, Function.comp]
      exact ⟨pr, hpr, rfl⟩
    · rcases hres : (download_file (net.assetGet pr.2) pr.2
        (pathJoin p.target_directory_path pr.1) 3 1).1 with e | u
      · simp
      · cases u
        exact absurd hres hne
  obtain ⟨x, hfind⟩ := Option.isSome_iff_exists.mp hsome
  have hpred := List.find?_some hfind
  rcases x with e | u
  · exact ⟨e, by simp only [downloadPhase, hfind]⟩
  · simp at hpred

theorem afterPoll_counts (net : Network) (p : DownloadRequestParameters) :
    countStatusRequests (afterPoll net p).2 = 0 ∧
    countDownloadRequests (afterPoll net p).2 = 1 := by
  unfold afterPoll
  rcases hd : net.downloadPost with te | resp
  · simp [countStatusRequests, countDownloadRequests]
  · rcases he : error_handle_response resp with e | u
    · simp [he, countStatusRequests, countDownloadRequests]
    · cases u
      rcases hj : resp.body.jsonDecodes with _ | _
      · simp [he, hj, countStatusRequests, countDownloadRequests]
      · rcases hm : resp.body.manifestEntries with _ | entries
        · simp [he, hj, hm, countStatusRequests, countDownloadRequests]
        · have hdp := downloadPhase_counts net p (buildAssetDict entries)
          simp only [he, hj, hm, Bool.not_true, Bool.false_eq_true, if_false]
          rw [countStatusRequests, countDownloadRequests] at hdp ⊢
          rw [List.filter_cons_of_neg (by simp), List.filter_cons_of_pos (by simp)]
          simp [hdp.1, hdp.2]

theorem try_download_result_of_pollDone (net : Network) (p : DownloadRequestParameters)
    (evs : List Event) (hpl : pollLoop net 0 3 = (Except.ok true, evs)) :
    try_download_result net p = ((afterPoll net p).1, evs ++ (afterPoll net p).2) := by
  simp only [try_download_result, hpl]

theorem try_download_result_of_pollError (net : Network) (p : DownloadRequestParameters)
    (e : PyError) (evs : List Event) (hpl : pollLoop net 0 3 = (Except.error e, evs)) :
    try_download_result net p = (Except.error e, evs) := by
  simp only [try_download_result, hpl]

theorem try_download_result_of_pollExhausted (net : Network) (p : DownloadRequestParameters)
    (evs : List Event) (hpl : pollLoop net 0 3 = (Except.ok false, evs)) :
    try_download_result net p = (Except.ok (.text notFinishedMessage), evs) := by
  simp only [try_download_result, hpl]

theorem afterPoll_manifest_ok (net : Network) (p : DownloadRequestParameters)
    (resp : Response) (entries : List (String × String))
    (hdl : net.downloadPost = Except.ok resp) (h2 : resp.is2xx = true)
    (hb : resp.body = Body.manifestBody (some entries)) :
    afterPoll net p = ((downloadPhase net p (buildAssetDict entries)).1,
      Event.downloadRequest :: (downloadPhase net p (buildAssetDict entries)).2) := by
  simp only [afterPoll, hdl, error_handle_response, raise_for_status, h2, if_true, hb,
    Body.jsonDecodes, Body.manifestEntries, Bool.not_true, Bool.false_eq_true, if_false]

theorem download_file_first_ok (fetch : Nat → NetResult) (url fp : String) (resp : Response)
    (hf : fetch 1 = Except.ok resp) (h2 : resp.is2xx = true) :
    download_file fetch url fp 3 1 =
      (Except.ok (), [Event.assetRequest url, Event.fileWrite fp resp.body.content]) := by
  simp only [download_file, download_file_go, hf, h2, if_true]

theorem flatten_map_singleton {α β : Type} (l : List α) (g : α → β) :
    (l.map (fun x => [g x])).flatten = l.map g := by
  induction l with
  | nil => simp
  | cons a l ih => simp [ih]

theorem filterMap_flatten_nil {α : Type} (f : Event → Option α) (L : List (List Event))
    (h : ∀ l ∈ L, l.filterMap f = []) : L.flatten.filterMap f = [] := by
  induction L with
  | nil => simp
  | cons a L ih =>
    simp only [List.flatten_cons, List.filterMap_append]
    rw [h a (by simp), ih (fun l hl => h l (by simp [hl]))]
    rfl

/-! ## Claims -/

/-- C1: the claim states that every vendor-facing HTTP failure raised during
`generate_3d_model` or `try_download_result` — non-2xx status, connection
error, or timeout — surfaces as the single normalized API error kind.  The
code contradicts this: a connection error raised at the submit POST occurs at
the `client.post` call site, outside any handler, and escapes as the raw
httpx exception; `error_handle_response`'s dead `RequestError` /
`TimeoutException` branches show normalization was intended.  This theorem
evaluates the code at that failing input. -/
theorem c1_transport_error_escapes_unnormalized :
    generate_3d_model (Except.error TransportErr.connect) =
      Except.error (PyError.httpx HttpxExc.connectError) ∧
    (PyError.httpx HttpxExc.connectError).isRodinAPI = false :=
  ⟨rfl, rfl⟩

/-- C2: for every sequence of status responses in which attempt k (1 ≤ k ≤ 3)
is the first to report every job Done (earlier attempts report a pending,
non-terminal state), `try_download_result` issues exactly k status requests
and then issues the manifest-resolution request exactly once. -/
theorem c2_poll_done_requests (net : Network) (p : DownloadRequestParameters) (k : Nat)
    (hk1 : 1 ≤ k) (hk3 : k ≤ 3)
    (hprev : ∀ i, i + 1 < k → pendingOkP (net.statusPost i))
    (hdone : allDoneP (net.statusPost (k - 1))) :
    countStatusRequests (try_download_result net p).2 = k ∧
    countDownloadRequests (try_download_result net p).2 = 1 := by
  have hafter := afterPoll_counts net p
  have hs := hafter.1
  have hd := hafter.2
  rw [countStatusRequests] at hs
  rw [countDownloadRequests] at hd
  interval_cases k
  · have hpl : pollLoop net 0 3 = (Except.ok true, [Event.statusRequest]) :=
      pollLoop_allDone_step net 0 2 hdone
    rw [try_download_result_of_pollDone net p _ hpl]
    constructor
    · simp [countStatusRequests, List.filter_append, hs]
    · simp [countDownloadRequests, List.filter_append, hd]
  · have h1 : pollLoop net 1 2 = (Except.ok true, [Event.statusRequest]) :=
      pollLoop_allDone_step net 1 1 hdone
    have hpl := pollLoop_pending_step net 0 2 (hprev 0 (by omega))
    rw [h1] at hpl
    rw [try_download_result_of_pollDone net p _ hpl]
    constructor
    · simp [countStatusRequests, List.filter_append, hs]
    · simp [countDownloadRequests, List.filter_append, hd]
  · have h2 : pollLoop net 2 1 = (Except.ok true, [Event.statusRequest]) :=
      pollLoop_allDone_step net 2 0 hdone
    have h1 := pollLoop_pending_step net 1 1 (hprev 1 (by omega))
    rw [h2] at h1
    have hpl := pollLoop_pending_step net 0 2 (hprev 0 (by omega))
    rw [h1] at hpl
    rw [try_download_result_of_pollDone net p _ hpl]
    constructor
    · simp [countStatusRequests, List.filter_append, hs]
    · simp [countDownloadRequests, List.filter_append, hd]

/-- Witness for C2: with the first poll pending and the second all-Done,
exactly 2 status requests and 1 manifest request are issued. -/
theorem c2_poll_done_requests_witness :
    countStatusRequests (try_download_result netPendingThenDone exampleParams).2 = 2 ∧
    countDownloadRequests (try_download_result netPendingThenDone exampleParams).2 = 1 :=
  c2_poll_done_requests netPendingThenDone exampleParams 2 (by decide) (by decide)
    (fun i hi => by
      have h0 : i = 0 := by omega
      subst h0
      exact ⟨pendingResp, ["Running", "Done"], rfl, by decide, rfl, by decide, by decide⟩)
    ⟨doneResp, ["Done", "Done"], rfl, by decide, rfl, by decide⟩

/-- C3: if the status response seen at some reached attempt (earlier attempts
pending) contains a Failed or Canceled entry, `try_download_result` fails
with the task-failure API error carrying that response, regardless of the
other entries, and never issues the manifest-resolution request. -/
theorem c3_task_failure_no_manifest (net : Network) (p : DownloadRequestParameters)
    (j : Nat) (hj : j < 3) (hprev : ∀ i, i < j → pendingOkP (net.statusPost i))
    (resp : Response) (l : List String)
    (hr : net.statusPost j = Except.ok resp) (h2 : resp.is2xx = true)
    (hb : resp.body = Body.statusBody (some l))
    (hfc : (l.contains "Failed" || l.contains "Canceled") = true) :
    (try_download_result net p).1 =
      Except.error (.rodinAPI "Generation task failed!" (some resp)) ∧
    countDownloadRequests (try_download_result net p).2 = 0 := by
  interval_cases j
  · have hpl := pollLoop_failed_step net 0 2 resp l hr h2 hb hfc
    rw [try_download_result_of_pollError net p _ _ hpl]
    exact ⟨rfl, by simp [countDownloadRequests]⟩
  · have h1 := pollLoop_failed_step net 1 1 resp l hr h2 hb hfc
    have hpl := pollLoop_pending_step net 0 2 (hprev 0 (by omega))
    rw [h1] at hpl
    rw [try_download_result_of_pollError net p _ _ hpl]
    exact ⟨rfl, by simp [countDownloadRequests]⟩
  · have h2s := pollLoop_failed_step net 2 0 resp l hr h2 hb hfc
    have h1 := pollLoop_pending_step net 1 1 (hprev 1 (by omega))
    rw [h2s] at h1
    have hpl := pollLoop_pending_step net 0 2 (hprev 0 (by omega))
    rw [h1] at hpl
    rw [try_download_result_of_pollError net p _ _ hpl]
    exact ⟨rfl, by simp [countDownloadRequests]⟩

/-- Witness for C3: a first poll reporting a Failed job yields the
task-failure API error and no manifest request. -/
theorem c3_task_failure_no_manifest_witness :
    (try_download_result netTaskFailed exampleParams).1 =
      Except.error (.rodinAPI "Generation task failed!" (some failedResp)) ∧
    countDownloadRequests (try_download_result netTaskFailed exampleParams).2 = 0 :=
  c3_task_failure_no_manifest netTaskFailed exampleParams 0 (by decide)
    (fun i hi => absurd hi (by omega)) failedResp ["Done", "Failed"] rfl (by decide) rfl
    (by decide)

/-- C4: when all three polls report a pending (non-terminal, non-failed)
state, `try_download_result` returns the not-finished sentinel string as a
normal value — no exception — and that sentinel is the literal string from
the source. -/
theorem c4_not_finished_sentinel (net : Network) (p : DownloadRequestParameters)
    (hp : ∀ i, i < 3 → pendingOkP (net.statusPost i)) :
    (try_download_result net p).1 = Except.ok (.text notFinishedMessage) ∧
    notFinishedMessage = "Task not finished yet. Try again later." := by
  have h2 := pollLoop_pending_step net 2 0 (hp 2 (by omega))
  have h1 := pollLoop_pending_step net 1 1 (hp 1 (by omega))
  have h0 := pollLoop_pending_step net 0 2 (hp 0 (by omega))
  rw [show pollLoop net 3 0 = (Except.ok false, []) from rfl] at h2
  rw [h2] at h1
  rw [h1] at h0
  rw [try_download_result_of_pollExhausted net p _ h0]
  exact ⟨rfl, rfl⟩

/-- Witness for C4: a network whose polls always report Running yields the
sentinel. -/
theorem c4_not_finished_sentinel_witness :
    (try_download_result netAllPending exampleParams).1 =
      Except.ok (.text notFinishedMessage) ∧
    notFinishedMessage = "Task not finished yet. Try again later." :=
  c4_not_finished_sentinel netAllPending exampleParams
    (fun i _ =>
      ⟨pendingResp, ["Running", "Done"], rfl, by decide, rfl, by decide, by decide⟩)

theorem downloadPhase_fs_events (net : Network) (p : DownloadRequestParameters)
    (dict : List (String × String)) (serve : String → Bytes)
    (htasks : ∀ pr ∈ dict,
      download_file (net.assetGet pr.2) pr.2 (pathJoin p.target_directory_path pr.1) 3 1 =
        (Except.ok (), [Event.assetRequest pr.2,
          Event.fileWrite (pathJoin p.target_directory_path pr.1) (serve pr.2)])) :
    writes (downloadPhase net p dict).2 =
      dict.map (fun pr => (pathJoin p.target_directory_path pr.1, serve pr.2)) ∧
    mkdirs (downloadPhase net p dict).2 = [(p.target_directory_path, true)] := by
  rw [writes, mkdirs, downloadPhase_trace]
  constructor
  · rw [List.filterMap_cons_none (by rfl), filterMap_flatten_eq, List.map_map, List.map_map]
    have hcongr : ∀ pr ∈ dict,
        (((fun l => l.filterMap (fun e => match e with
            | Event.fileWrite pth c => some (pth, c)
            | _ => none)) ∘ Prod.snd) ∘ (fun pr =>
          download_file (net.assetGet pr.2) pr.2 (pathJoin p.target_directory_path pr.1) 3 1))
            pr =
          [((pathJoin p.target_directory_path pr.1, serve pr.2) :
            String × Bytes)] := by
      intro pr hpr
      simp only [Function.comp_apply, htasks pr hpr]
      rfl
    rw [List.map_congr_left hcongr, flatten_map_singleton]
  · rw [List.filterMap_cons_some (by rfl)]
    have hnil : (((dict.map (fun pr =>
        download_file (net.assetGet pr.2) pr.2 (pathJoin p.target_directory_path pr.1) 3 1)).map
          Prod.snd).flatten).filterMap (fun e => match e with
            | Event.mkdir pth ok => some (pth, ok)
            | _ => none) = [] := by
      apply filterMap_flatten_nil
      intro l hl
      simp only [List.map_map, List.mem_map, Function.comp] at hl
      obtain ⟨pr, hpr, rfl⟩ := hl
      rw [htasks pr hpr]
      rfl
    rw [hnil]

/-- C5: for every manifest of uniquely named assets and a fully successful
run (poll broke out, 2xx manifest response, every asset GET succeeding with
its served bytes on the first attempt), `try_download_result` succeeds,
writes exactly one file per manifest entry at
`{target_directory_path}/{asset_name}` with contents byte-identical to the
bytes served at that asset's URL, and creates the target directory exactly
once with the tolerate-existing flag set. -/
theorem c5_success_downloads (net : Network) (p : DownloadRequestParameters)
    (entries : List (String × String)) (serve : String → Bytes)
    (hpoll : (pollLoop net 0 3).1 = Except.ok true)
    (resp : Response) (hdl : net.downloadPost = Except.ok resp) (h2 : resp.is2xx = true)
    (hb : resp.body = Body.manifestBody (some entries))
    (hnodup : (entries.map Prod.fst).Nodup)
    (hfetch : ∀ pr ∈ entries, ∃ st : Nat,
      net.assetGet pr.2 1 = Except.ok ⟨st, Body.bytes (serve pr.2)⟩ ∧
      (Response.mk st (Body.bytes (serve pr.2))).is2xx = true) :
    (∃ r, (try_download_result net p).1 = Except.ok r) ∧
    writes (try_download_result net p).2 =
      entries.map (fun pr => (pathJoin p.target_directory_path pr.1, serve pr.2)) ∧
    (writes (try_download_result net p).2).length = entries.length ∧
    mkdirs (try_download_result net p).2 = [(p.target_directory_path, true)] := by
  have hev : pollLoop net 0 3 = (Except.ok true, (pollLoop net 0 3).2) := by
    rw [← hpoll]
  have hap := afterPoll_manifest_ok net p resp entries hdl h2 hb
  rw [buildAssetDict_nodup entries hnodup] at hap
  have htasks : ∀ pr ∈ entries,
      download_file (net.assetGet pr.2) pr.2 (pathJoin p.target_directory_path pr.1) 3 1 =
        (Except.ok (), [Event.assetRequest pr.2,
          Event.fileWrite (pathJoin p.target_directory_path pr.1) (serve pr.2)]) := by
    intro pr hpr
    obtain ⟨st, hget, h2x⟩ := hfetch pr hpr
    exact download_file_first_ok (net.assetGet pr.2) pr.2
      (pathJoin p.target_directory_path pr.1) ⟨st, Body.bytes (serve pr.2)⟩ hget h2x
  have hdp := downloadPhase_fs_events net p entries serve htasks
  have hres : (try_download_result net p).1 = (downloadPhase net p entries).1 := by
    rw [try_download_result_of_pollDone net p _ hev, hap]
  have htr : (try_download_result net p).2 =
      (pollLoop net 0 3).2 ++
        Event.downloadRequest :: (downloadPhase net p entries).2 := by
    rw [try_download_result_of_pollDone net p _ hev, hap]
  have hpw := (pollLoop_trace net 3 0).2.2.1
  have hpm := (pollLoop_trace net 3 0).2.2.2
  have hw : writes (try_download_result net p).2 =
      entries.map (fun pr => (pathJoin p.target_directory_path pr.1, serve pr.2)) := by
    rw [htr, writes, List.filterMap_append, List.filterMap_cons_none (by rfl)]
    rw [writes] at hpw
    rw [hpw]
    have h2w := hdp.1
    rw [writes] at h2w
    rw [h2w, List.nil_append]
  have hok : (try_download_result net p).1 =
      Except.ok (.pair
        (if hasKey entries "preview.webp" then
          some (pathJoin p.target_directory_path "preview.webp")
        else none)
        (downloadSummary p.target_directory_path)) := by
    rw [hres]
    exact downloadPhase_all_ok net p entries (fun pr hpr => by rw [htasks pr hpr])
  have hm : mkdirs (try_download_result net p).2 = [(p.target_directory_path, true)] := by
    rw [htr, mkdirs, List.filterMap_append, List.filterMap_cons_none (by rfl)]
    rw [mkdirs] at hpm
    rw [hpm]
    have h2m := hdp.2
    rw [mkdirs] at h2m
    rw [h2m, List.nil_append]
  exact ⟨⟨_, hok⟩, hw, by rw [hw, List.length_map], hm⟩

theorem failsAttempt_not2xx {resp : Response}
    (h : NetResult.failsAttempt (Except.ok resp) = true) : resp.is2xx = false := by
  simp only [NetResult.failsAttempt] at h
  rcases h2 : resp.is2xx with _ | _
  · rfl
  · rw [h2] at h
    simp at h

theorem download_file_go_success_step (fetch : Nat → NetResult) (url fp : String) (delay : ℚ)
    (attempt fuel : Nat) (resp : Response)
    (hf : fetch attempt = Except.ok resp) (h2 : resp.is2xx = true) :
    download_file_go fetch url fp delay attempt (fuel + 1) =
      (Except.ok (), [Event.assetRequest url, Event.fileWrite fp resp.body.content]) := by
  simp [download_file_go, hf, h2]

theorem download_file_go_fail_step (fetch : Nat → NetResult) (url fp : String) (delay : ℚ)
    (attempt fuel : Nat) (h : (fetch attempt).failsAttempt = true) :
    download_file_go fetch url fp delay attempt (fuel + 1 + 1) =
      ((download_file_go fetch url fp delay (attempt + 1) (fuel + 1)).1,
        Event.assetRequest url :: Event.sleep delay ::
          (download_file_go fetch url fp delay (attempt + 1) (fuel + 1)).2) := by
  rcases hf : fetch attempt with te | resp
  · simp [download_file_go, hf]
  · rw [hf] at h
    simp [download_file_go, hf, failsAttempt_not2xx h]

theorem download_file_go_fail_last (fetch : Nat → NetResult) (url fp : String) (delay : ℚ)
    (attempt : Nat) (h : (fetch attempt).failsAttempt = true) :
    download_file_go fetch url fp delay attempt 1 =
      (Except.error (attemptExc (fetch attempt)), [Event.assetRequest url]) := by
  rcases hf : fetch attempt with te | resp
  · simp [download_file_go, hf]
  · rw [hf] at h
    simp [download_file_go, hf, failsAttempt_not2xx h]

/-- C6: each asset fetch makes at most 3 GET attempts with a fixed 1.0 s
delay between consecutive attempts (every sleep in its trace is 1 s, and
sleeps number exactly one fewer than attempts); if the first success comes at
attempt j ≤ 3 after failing earlier attempts, the full body is written to the
target file and the fetch returns success; if all 3 attempts fail, the last
attempt's failure propagates and no file is written. -/
theorem c6_download_file_retry (fetch : Nat → NetResult) (url fp : String) :
    countAssetRequests (download_file fetch url fp 3 1).2 ≤ 3 ∧
    (∀ q : ℚ, Event.sleep q ∈ (download_file fetch url fp 3 1).2 → q = 1) ∧
    countSleeps (download_file fetch url fp 3 1).2 + 1 =
      countAssetRequests (download_file fetch url fp 3 1).2 ∧
    (∀ j : Nat, 1 ≤ j → j ≤ 3 →
      (∀ i, 1 ≤ i → i < j → (fetch i).failsAttempt = true) →
      ∀ resp : Response, fetch j = Except.ok resp → resp.is2xx = true →
        (download_file fetch url fp 3 1).1 = Except.ok () ∧
        writes (download_file fetch url fp 3 1).2 = [(fp, resp.body.content)] ∧
        countAssetRequests (download_file fetch url fp 3 1).2 = j) ∧
    ((∀ i, 1 ≤ i → i ≤ 3 → (fetch i).failsAttempt = true) →
      (download_file fetch url fp 3 1).1 = Except.error (attemptExc (fetch 3)) ∧
      writes (download_file fetch url fp 3 1).2 = []) := by
  refine ⟨download_file_go_attempts_le fetch url fp 1 3 1, ?_, ?_, ?_, ?_⟩
  · exact fun q hq => download_file_go_sleep_mem fetch url fp 1 3 1 q hq
  · exact download_file_go_sleep_count fetch url fp 1 3 1 (by omega)
  · intro j hj1 hj3 hfail resp hj h2x
    interval_cases j
    · have h := download_file_first_ok fetch url fp resp hj h2x
      rw [download_file] at h
      rw [download_file, h]
      exact ⟨rfl, rfl, rfl⟩
    · have hs : download_file_go fetch url fp 1 2 2 =
          (Except.ok (), [Event.assetRequest url, Event.fileWrite fp resp.body.content]) :=
        download_file_go_success_step fetch url fp 1 2 1 resp hj h2x
      have h1 : download_file_go fetch url fp 1 1 3 =
          ((download_file_go fetch url fp 1 2 2).1,
            Event.assetRequest url :: Event.sleep 1 ::
              (download_file_go fetch url fp 1 2 2).2) :=
        download_file_go_fail_step fetch url fp 1 1 1 (hfail 1 (by omega) (by omega))
      rw [hs] at h1
      rw [download_file, h1]
      exact ⟨rfl, rfl, rfl⟩
    · have hs : download_file_go fetch url fp 1 3 1 =
          (Except.ok (), [Event.assetRequest url, Event.fileWrite fp resp.body.content]) :=
        download_file_go_success_step fetch url fp 1 3 0 resp hj h2x
      have h2 : download_file_go fetch url fp 1 2 2 =
          ((download_file_go fetch url fp 1 3 1).1,
            Event.assetRequest url :: Event.sleep 1 ::
              (download_file_go fetch url fp 1 3 1).2) :=
        download_file_go_fail_step fetch url fp 1 2 0 (hfail 2 (by omega) (by omega))
      rw [hs] at h2
      have h1 : download_file_go fetch url fp 1 1 3 =
          ((download_file_go fetch url fp 1 2 2).1,
            Event.assetRequest url :: Event.sleep 1 ::
              (download_file_go fetch url fp 1 2 2).2) :=
        download_file_go_fail_step fetch url fp 1 1 1 (hfail 1 (by omega) (by omega))
      rw [h2] at h1
      rw [download_file, h1]
      exact ⟨rfl, rfl, rfl⟩
  · intro hall
    have hlast : download_file_go fetch url fp 1 3 1 =
        (Except.error (attemptExc (fetch 3)), [Event.assetRequest url]) :=
      download_file_go_fail_last fetch url fp 1 3 (hall 3 (by omega) (by omega))
    have h2 : download_file_go fetch url fp 1 2 2 =
        ((download_file_go fetch url fp 1 3 1).1,
          Event.assetRequest url :: Event.sleep 1 ::
            (download_file_go fetch url fp 1 3 1).2) :=
      download_file_go_fail_step fetch url fp 1 2 0 (hall 2 (by omega) (by omega))
    rw [hlast] at h2
    have h1 : download_file_go fetch url fp 1 1 3 =
        ((download_file_go fetch url fp 1 2 2).1,
          Event.assetRequest url :: Event.sleep 1 ::
            (download_file_go fetch url fp 1 2 2).2) :=
      download_file_go_fail_step fetch url fp 1 1 1 (hall 1 (by omega) (by omega))
    rw [h2] at h1
    rw [download_file, h1]
    exact ⟨rfl, rfl⟩

/-- Witness for C5: the happy-path network downloads both example assets with
their served bytes and creates the target directory once. -/
theorem c5_success_downloads_witness :
    (∃ r, (try_download_result netHappy exampleParams).1 = Except.ok r) ∧
    writes (try_download_result netHappy exampleParams).2 =
      [("model.glb", "u1"), ("preview.webp", "u2")].map
        (fun pr => (pathJoin exampleParams.target_directory_path pr.1, exampleServe pr.2)) ∧
    (writes (try_download_result netHappy exampleParams).2).length =
      ([("model.glb", "u1"), ("preview.webp", "u2")] : List (String × String)).length ∧
    mkdirs (try_download_result netHappy exampleParams).2 =
      [(exampleParams.target_directory_path, true)] :=
  c5_success_downloads netHappy exampleParams [("model.glb", "u1"), ("preview.webp", "u2")]
    exampleServe rfl manifestResp rfl rfl rfl (by decide)
    (fun pr _ => ⟨200, rfl, rfl⟩)

/-- Witness for C6: a fetch failing attempts 1-2 and succeeding on attempt 3
yields a correctly written file, overall success, and 3 attempts. -/
theorem c6_download_file_retry_witness :
    (download_file flakyFetch "u1" "/tmp/out/f" 3 1).1 = Except.ok () ∧
    writes (download_file flakyFetch "u1" "/tmp/out/f" 3 1).2 = [("/tmp/out/f", [9])] ∧
    countAssetRequests (download_file flakyFetch "u1" "/tmp/out/f" 3 1).2 = 3 :=
  (c6_download_file_retry flakyFetch "u1" "/tmp/out/f").2.2.2.1 3 (by decide) (by decide)
    (fun i h1 hi => by interval_cases i <;> rfl)
    (assetResp [9]) rfl rfl

/-- C7: once the manifest is resolved, the whole operation succeeds exactly
when every per-asset fetch task succeeds; and the trace's file writes are the
concatenation of every task's writes — every sibling task's writes survive a
failing task (no rollback, no cancellation). -/
theorem c7_all_or_nothing (net : Network) (p : DownloadRequestParameters)
    (entries : List (String × String))
    (hpoll : (pollLoop net 0 3).1 = Except.ok true)
    (resp : Response) (hdl : net.downloadPost = Except.ok resp) (h2 : resp.is2xx = true)
    (hb : resp.body = Body.manifestBody (some entries)) :
    ((∃ r, (try_download_result net p).1 = Except.ok r) ↔
      (∀ pr ∈ buildAssetDict entries,
        (download_file (net.assetGet pr.2) pr.2
          (pathJoin p.target_directory_path pr.1) 3 1).1 = Except.ok ())) ∧
    writes (try_download_result net p).2 =
      ((buildAssetDict entries).map (fun pr =>
        writes (download_file (net.assetGet pr.2) pr.2
          (pathJoin p.target_directory_path pr.1) 3 1).2)).flatten := by
  have hev : pollLoop net 0 3 = (Except.ok true, (pollLoop net 0 3).2) := by
    rw [← hpoll]
  have hap := afterPoll_manifest_ok net p resp entries hdl h2 hb
  have hres : (try_download_result net p).1 =
      (downloadPhase net p (buildAssetDict entries)).1 := by
    rw [try_download_result_of_pollDone net p _ hev, hap]
  have htr : (try_download_result net p).2 =
      (pollLoop net 0 3).2 ++
        Event.downloadRequest :: (downloadPhase net p (buildAssetDict entries)).2 := by
    rw [try_download_result_of_pollDone net p _ hev, hap]
  constructor
  · constructor
    · rintro ⟨r, hr⟩ pr hpr
      by_contra hne
      obtain ⟨e, he⟩ :=
        downloadPhase_some_fails net p (buildAssetDict entries) ⟨pr, hpr, hne⟩
      rw [hres, he] at hr
      exact Except.noConfusion hr
    · intro hall
      exact ⟨_, by rw [hres]; exact downloadPhase_all_ok net p (buildAssetDict entries) hall⟩
  · have hpw := (pollLoop_trace net 3 0).2.2.1
    rw [htr, writes, List.filterMap_append, List.filterMap_cons_none (by rfl)]
    rw [writes] at hpw
    rw [hpw, List.nil_append]
    rw [downloadPhase_trace, List.filterMap_cons_none (by rfl), filterMap_flatten_eq,
      List.map_map, List.map_map]
    rfl

/-- Witness for C7: with the first asset failing every attempt and the second
succeeding, the operation fails while the successful sibling's file remains
written. -/
theorem c7_all_or_nothing_witness :
    (¬ ∃ r, (try_download_result netOneBadAsset exampleParams).1 = Except.ok r) ∧
    writes (try_download_result netOneBadAsset exampleParams).2 =
      [("/tmp/out/preview.webp", [3])] := by
  have h := c7_all_or_nothing netOneBadAsset exampleParams
    [("model.glb", "u1"), ("preview.webp", "u2")] rfl manifestResp rfl rfl rfl
  constructor
  · intro hok
    have hbad := h.1.mp hok ("model.glb", "u1") (by decide)
    exact absurd hbad (by decide)
  · rw [h.2]
    rfl

/-- C8: for every successful run, the result pairs a preview handle — present
exactly when the manifest contains an entry named "preview.webp", pointing at
the downloaded file — with the summary string, which contains the target
directory path as a suffix. -/
theorem c8_preview_handle (net : Network) (p : DownloadRequestParameters)
    (entries : List (String × String))
    (hpoll : (pollLoop net 0 3).1 = Except.ok true)
    (resp : Response) (hdl : net.downloadPost = Except.ok resp) (h2 : resp.is2xx = true)
    (hb : resp.body = Body.manifestBody (some entries))
    (hall : ∀ pr ∈ buildAssetDict entries,
      (download_file (net.assetGet pr.2) pr.2
        (pathJoin p.target_directory_path pr.1) 3 1).1 = Except.ok ()) :
    (try_download_result net p).1 =
      Except.ok (.pair
        (if hasKey entries "preview.webp" then
          some (pathJoin p.target_directory_path "preview.webp")
        else none)
        (downloadSummary p.target_directory_path)) ∧
    ∃ s, downloadSummary p.target_directory_path = s ++ p.target_directory_path := by
  have hev : pollLoop net 0 3 = (Except.ok true, (pollLoop net 0 3).2) := by
    rw [← hpoll]
  have hap := afterPoll_manifest_ok net p resp entries hdl h2 hb
  have hres : (try_download_result net p).1 =
      (downloadPhase net p (buildAssetDict entries)).1 := by
    rw [try_download_result_of_pollDone net p _ hev, hap]
  have hok := downloadPhase_all_ok net p (buildAssetDict entries) hall
  rw [hasKey_buildAssetDict] at hok
  refine ⟨by rw [hres]; exact hok,
    ⟨"The image above is an preview image of the generated model, without texture and material.\n"
      ++ "The assets are downloaded to ", ?_⟩⟩
  rw [downloadSummary, String.append_assoc]

/-- Witness for C8: the happy-path manifest contains "preview.webp", so the
result carries the preview handle and the summary naming the target. -/
theorem c8_preview_handle_witness :
    (try_download_result netHappy exampleParams).1 =
      Except.ok (.pair (some (pathJoin "/tmp/out" "preview.webp"))
        (downloadSummary "/tmp/out")) ∧
    ∃ s, downloadSummary "/tmp/out" = s ++ "/tmp/out" := by
  have h := c8_preview_handle netHappy exampleParams
    [("model.glb", "u1"), ("preview.webp", "u2")] rfl manifestResp rfl rfl rfl (by decide)
  exact ⟨h.1, h.2⟩

/-- C9 counterexample: a 2xx manifest response whose JSON body lacks the
list key makes `try_download_result` fail with a generic `KeyError` — not
the normalized API error kind — refuting the claim that every 2xx
unexpected-shape response is surfaced as the normalized API error. -/
theorem c9_malformed_manifest_counterexample :
    (try_download_result netBadManifest exampleParams).1 =
      Except.error (PyError.pyGeneric "KeyError: list") ∧
    (PyError.pyGeneric "KeyError: list").isRodinAPI = false :=
  ⟨rfl, rfl⟩

/-- C9 (amended): a 2xx status response missing the jobs list fails with the
normalized API error describing the malformed payload, but a 2xx malformed
manifest response (missing the list key) raises a generic `KeyError`, not
the normalized API error. -/
theorem c9_amended_malformed_payloads (net : Network) (p : DownloadRequestParameters) :
    (∀ j : Nat, j < 3 → (∀ i, i < j → pendingOkP (net.statusPost i)) →
      ∀ resp : Response, net.statusPost j = Except.ok resp → resp.is2xx = true →
        resp.body = Body.statusBody none →
        (try_download_result net p).1 =
          Except.error (.rodinAPI "Unexpected response" none)) ∧
    ((pollLoop net 0 3).1 = Except.ok true →
      ∀ resp : Response, net.downloadPost = Except.ok resp → resp.is2xx = true →
        resp.body = Body.manifestBody none →
        (try_download_result net p).1 = Except.error (.pyGeneric "KeyError: list") ∧
        (PyError.pyGeneric "KeyError: list").isRodinAPI = false) := by
  constructor
  · intro j hj hprev resp hr h2 hb
    interval_cases j
    · have hpl := pollLoop_noJobs_step net 0 2 resp hr h2 hb
      rw [try_download_result_of_pollError net p _ _ hpl]
    · have h1 := pollLoop_noJobs_step net 1 1 resp hr h2 hb
      have hpl := pollLoop_pending_step net 0 2 (hprev 0 (by omega))
      rw [h1] at hpl
      rw [try_download_result_of_pollError net p _ _ hpl]
    · have h2s := pollLoop_noJobs_step net 2 0 resp hr h2 hb
      have h1 := pollLoop_pending_step net 1 1 (hprev 1 (by omega))
      rw [h2s] at h1
      have hpl := pollLoop_pending_step net 0 2 (hprev 0 (by omega))
      rw [h1] at hpl
      rw [try_download_result_of_pollError net p _ _ hpl]
  · intro hpoll resp hdl h2 hb
    have hev : pollLoop net 0 3 = (Except.ok true, (pollLoop net 0 3).2) := by
      rw [← hpoll]
    have hap : afterPoll net p =
        (Except.error (.pyGeneric "KeyError: list"), [Event.downloadRequest]) := by
      simp only [afterPoll, hdl, error_handle_response, raise_for_status, h2, if_true, hb,
        Body.jsonDecodes, Body.manifestEntries, Bool.not_true, Bool.false_eq_true, if_false]
    refine ⟨?_, rfl⟩
    rw [try_download_result_of_pollDone net p _ hev, hap]

/-- Witness for the amended C9: a missing jobs list yields the normalized
"Unexpected response" API error; a missing manifest list yields the generic
KeyError. -/
theorem c9_amended_malformed_payloads_witness :
    (try_download_result netBadStatusShape exampleParams).1 =
      Except.error (.rodinAPI "Unexpected response" none) ∧
    (try_download_result netBadManifest exampleParams).1 =
      Except.error (.pyGeneric "KeyError: list") := by
  constructor
  · exact (c9_amended_malformed_payloads netBadStatusShape exampleParams).1 0 (by decide)
      (fun i hi => absurd hi (by omega)) noJobsResp rfl rfl rfl
  · exact ((c9_amended_malformed_payloads netBadManifest exampleParams).2 rfl
      noListResp rfl rfl rfl).1

theorem afterPoll_trace_no_manifest (net : Network) (p : DownloadRequestParameters)
    (h : ∀ resp : Response, net.downloadPost = Except.ok resp → resp.is2xx = true →
      resp.body.manifestEntries = none) :
    (afterPoll net p).2 = [Event.downloadRequest] := by
  unfold afterPoll
  rcases hd : net.downloadPost with te | resp
  · rfl
  · rcases h2 : resp.is2xx with _ | _
    · simp [error_handle_response, raise_for_status, h2]
    · have hm := h resp hd h2
      rcases hj : resp.body.jsonDecodes with _ | _
      · simp [error_handle_response, raise_for_status, h2, hj]
      · simp [error_handle_response, raise_for_status, h2, hj, hm]

/-- C10: whenever `try_download_result` fails during the polling phase,
exhausts the poll budget (not-finished sentinel), or fails during manifest
resolution (transport error, non-2xx, or a response without a usable
manifest list), the filesystem is untouched: no file write and no directory
creation appears in the trace. -/
theorem c10_no_fs_effects_before_manifest (net : Network) (p : DownloadRequestParameters) :
    (∀ e : PyError, (pollLoop net 0 3).1 = Except.error e →
      writes (try_download_result net p).2 = [] ∧
      mkdirs (try_download_result net p).2 = []) ∧
    ((pollLoop net 0 3).1 = Except.ok false →
      writes (try_download_result net p).2 = [] ∧
      mkdirs (try_download_result net p).2 = []) ∧
    ((pollLoop net 0 3).1 = Except.ok true →
      (∀ resp : Response, net.downloadPost = Except.ok resp → resp.is2xx = true →
        resp.body.manifestEntries = none) →
      writes (try_download_result net p).2 = [] ∧
      mkdirs (try_download_result net p).2 = []) := by
  have hpw := (pollLoop_trace net 3 0).2.2.1
  have hpm := (pollLoop_trace net 3 0).2.2.2
  refine ⟨?_, ?_, ?_⟩
  · intro e hpoll
    have hev : pollLoop net 0 3 = (Except.error e, (pollLoop net 0 3).2) := by
      rw [← hpoll]
    rw [try_download_result_of_pollError net p _ _ hev]
    exact ⟨hpw, hpm⟩
  · intro hpoll
    have hev : pollLoop net 0 3 = (Except.ok false, (pollLoop net 0 3).2) := by
      rw [← hpoll]
    rw [try_download_result_of_pollExhausted net p _ hev]
    exact ⟨hpw, hpm⟩
  · intro hpoll h
    have hev : pollLoop net 0 3 = (Except.ok true, (pollLoop net 0 3).2) := by
      rw [← hpoll]
    have htr : (try_download_result net p).2 =
        (pollLoop net 0 3).2 ++ (afterPoll net p).2 := by
      rw [try_download_result_of_pollDone net p _ hev]
    rw [htr, afterPoll_trace_no_manifest net p h]
    constructor
    · rw [writes, List.filterMap_append]
      rw [writes] at hpw
      rw [hpw]
      rfl
    · rw [mkdirs, List.filterMap_append]
      rw [mkdirs] at hpm
      rw [hpm]
      rfl

/-- Witness for C10: a task-failure poll and a malformed-manifest run both
leave the filesystem untouched. -/
theorem c10_no_fs_effects_before_manifest_witness :
    (writes (try_download_result netTaskFailed exampleParams).2 = [] ∧
      mkdirs (try_download_result netTaskFailed exampleParams).2 = []) ∧
    (writes (try_download_result netBadManifest exampleParams).2 = [] ∧
      mkdirs (try_download_result netBadManifest exampleParams).2 = []) := by
  constructor
  · exact (c10_no_fs_effects_before_manifest netTaskFailed exampleParams).1
      (PyError.rodinAPI "Generation task failed!" (some failedResp)) rfl
  · refine (c10_no_fs_effects_before_manifest netBadManifest exampleParams).2.2 rfl ?_
    intro resp hresp _
    have h' : (Except.ok noListResp : NetResult) = Except.ok resp := hresp
    cases h'
    rfl
